import Mathlib

/-!
Verification of the webrtc-sctp repository's TLV parsing helper, UDP
lower-layer adapter, and error enumeration against its specification.

Bytes are modelled as natural numbers (each < 256 on the wire, though the
arithmetic below never needs that bound).  `nom`-style parser results are
modelled with `Except`: `Ok((rest, v))` becomes `.ok (rest, v)` and the
three `nom::Err` variants become the constructors of `NomErr`.
-/

/-- The three variants of `nom::Err` as used by the source: `Incomplete`,
recoverable `Error` (carrying the input position), and `Failure`. -/
inductive NomErr where
  | Incomplete : NomErr
  | Error : List Nat → NomErr
  | Failure : List Nat → NomErr
deriving DecidableEq, Repr

/-- `nom::number::complete::be_u16`: read a big-endian 16-bit integer from
the front of the input, failing (with a recoverable error) on fewer than
two bytes. -/
def be_u16 (input : List Nat) : Except NomErr (List Nat × Nat) :=
  match input with
  | b0 :: b1 :: rest => .ok (rest, b0 * 256 + b1)
  | _ => .error (.Error input)

/-- `TAG_LENGTH_HEADER_SIZE` from `parse_utils.rs`. -/
def TAG_LENGTH_HEADER_SIZE : Nat := 4

/-- The `parse_tlv!` macro from `src/packet/parse_utils.rs`, embedded as a
function parameterised by the dispatch function.  It consumes one SCTP
Tag-Length-Value structure: a 2-byte tag, a 2-byte length (counting the
4-byte header), the value, and trailing padding to a 4-byte boundary which
the last TLV of a buffer may omit. -/
def parse_tlv {α : Type} (dispatch_function : Nat → List Nat → Except NomErr (List Nat × α))
    (input : List Nat) : Except NomErr (List Nat × α) :=
  if input.length < TAG_LENGTH_HEADER_SIZE then
    -- underrun
    .error (.Error input)
  else
    -- Parse tag
    match be_u16 input with
    | .error e => .error e
    | .ok (i, tag) =>
      -- Parse length
      match be_u16 i with
      | .error e => .error e
      | .ok (i, length0) =>
        -- Validate length
        if length0 < TAG_LENGTH_HEADER_SIZE then
          -- invalid length field
          .error (.Error i)
        else
          -- Subtract the header size to get the value length
          let length := length0 - TAG_LENGTH_HEADER_SIZE
          -- Account for padding
          let padding := (4 - length % 4) % 4
          let padded_length := length + padding
          if length > i.length then
            -- not incomplete -- we should always have the full TLV
            .error (.Error i)
          else
            let value_data := i.take length
            let total_length := i.length
            let remaining_input :=
              if padded_length ≤ total_length then i.drop padded_length
              else
                -- The last item is allowed to omit padding
                i.drop i.length
            -- Dispatch
            match dispatch_function tag value_data with
            | .ok (i2, value) =>
              -- The value data should be completely consumed
              if i2.length ≠ 0 then .error (.Error i2)
              else .ok (remaining_input, value)
            | .error .Incomplete =>
              -- The TLV parser should always have complete data
              .error (.Error i)
            | .error e => .error e

/-- A dispatch function that consumes its whole value slice, returning the
tag and the raw value.  Used as a concrete instantiation in witnesses. -/
def dispatchConsumeAll : Nat → List Nat → Except NomErr (List Nat × (Nat × List Nat)) :=
  fun tag value => .ok ([], (tag, value))

/-- A dispatch function that always reports incomplete data. -/
def dispatchIncomplete : Nat → List Nat → Except NomErr (List Nat × Nat) :=
  fun _ _ => .error .Incomplete

/-- A dispatch function that succeeds but leaves its value slice
unconsumed. -/
def dispatchLeftover : Nat → List Nat → Except NomErr (List Nat × Nat) :=
  fun _ value => .ok (value, 0)

theorem parse_tlv_cons {α : Type}
    (d : Nat → List Nat → Except NomErr (List Nat × α))
    (b0 b1 b2 b3 : Nat) (rest : List Nat) :
    parse_tlv d (b0 :: b1 :: b2 :: b3 :: rest) =
      (if b2 * 256 + b3 < 4 then .error (.Error rest)
       else
         let length := b2 * 256 + b3 - 4
         let padded_length := length + (4 - length % 4) % 4
         if length > rest.length then .error (.Error rest)
         else
           match d (b0 * 256 + b1) (rest.take length) with
           | .ok (i2, value) =>
             if i2.length ≠ 0 then .error (.Error i2)
             else .ok ((if padded_length ≤ rest.length then rest.drop padded_length
                        else rest.drop rest.length), value)
           | .error .Incomplete => .error (.Error rest)
           | .error e => .error e) := by
  simp only [parse_tlv, be_u16, TAG_LENGTH_HEADER_SIZE, List.length_cons]
  rw [if_neg (by omega)]

/-- Claim C1: for every input buffer, TLV parsing pads the value to a 4-byte
boundary and consumes that padding after the value; a TLV whose padded
length is unavailable (in particular one whose declared length equals the
remaining buffer with its padding missing) is accepted only as the last
record: parsing it leaves no remaining input. -/
theorem tlv_padding_consumed {α : Type}
    (d : Nat → List Nat → Except NomErr (List Nat × α))
    (b0 b1 b2 b3 : Nat) (rest rem : List Nat) (v : α)
    (h : parse_tlv d (b0 :: b1 :: b2 :: b3 :: rest) = .ok (rem, v)) :
    ((b2 * 256 + b3 - 4) + (4 - (b2 * 256 + b3 - 4) % 4) % 4 ≤ rest.length →
        rem = rest.drop ((b2 * 256 + b3 - 4) + (4 - (b2 * 256 + b3 - 4) % 4) % 4)) ∧
    (rest.length < (b2 * 256 + b3 - 4) + (4 - (b2 * 256 + b3 - 4) % 4) % 4 →
        rem = []) := by
  rw [parse_tlv_cons] at h
  split at h
  · exact absurd h (by simp)
  · simp only [gt_iff_lt] at h
    split at h
    · exact absurd h (by simp)
    · split at h
      case _ i2 value heq =>
        split at h
        · exact absurd h (by simp)
        · rw [Except.ok.injEq, Prod.mk.injEq] at h
          constructor
          · intro hle
            rw [← h.1, if_pos hle]
          · intro hlt
            rw [← h.1, if_neg (not_le.mpr hlt), List.drop_length]
      case _ heq => exact absurd h (by simp)
      case _ e hne heq => exact absurd h (by simp)

theorem tlv_padding_consumed_witness :
    parse_tlv dispatchConsumeAll [0, 1, 0, 5, 9, 0, 0, 0, 170] = .ok ([170], (1, [9])) ∧
    ([170] : List Nat) = List.drop ((0 * 256 + 5 - 4) + (4 - (0 * 256 + 5 - 4) % 4) % 4)
      [9, 0, 0, 0, 170] :=
  ⟨by rfl,
   (tlv_padding_consumed dispatchConsumeAll 0 1 0 5 [9, 0, 0, 0, 170] [170] (1, [9])
      (by rfl)).1 (by decide)⟩

/-- Claim C2: for every input buffer, TLV parsing rejects a record whose
declared length field is smaller than 4, the size of its tag-length
header. -/
theorem tlv_rejects_length_below_header {α : Type}
    (d : Nat → List Nat → Except NomErr (List Nat × α))
    (b0 b1 b2 b3 : Nat) (rest : List Nat)
    (h : b2 * 256 + b3 < 4) :
    parse_tlv d (b0 :: b1 :: b2 :: b3 :: rest) = .error (.Error rest) := by
  rw [parse_tlv_cons, if_pos h]

theorem tlv_rejects_length_below_header_witness :
    parse_tlv dispatchConsumeAll [7, 7, 0, 3, 1, 2] = .error (.Error [1, 2]) :=
  tlv_rejects_length_below_header dispatchConsumeAll 7 7 0 3 [1, 2] (by decide)

/-- Claim C3: for every input buffer, TLV parsing rejects a record whose
declared length would extend its value past the end of the enclosing
buffer. -/
theorem tlv_rejects_overrun {α : Type}
    (d : Nat → List Nat → Except NomErr (List Nat × α))
    (b0 b1 b2 b3 : Nat) (rest : List Nat)
    (h4 : 4 ≤ b2 * 256 + b3) (h : rest.length < b2 * 256 + b3 - 4) :
    parse_tlv d (b0 :: b1 :: b2 :: b3 :: rest) = .error (.Error rest) := by
  have h1 : ¬ (b2 * 256 + b3 < 4) := by omega
  rw [parse_tlv_cons, if_neg h1]
  simp only [gt_iff_lt]
  rw [if_pos h]

theorem tlv_rejects_overrun_witness :
    parse_tlv dispatchConsumeAll [7, 7, 0, 9, 1, 2] = .error (.Error [1, 2]) :=
  tlv_rejects_overrun dispatchConsumeAll 7 7 0 9 [1, 2] (by decide) (by decide)

/-- Claim C4: partial decodes never yield a value.  Every buffer shorter
than the 4-byte tag-length header fails, and an inner dispatch parser
reporting incomplete data is turned into a failure rather than a
suspension or a partial value. -/
theorem tlv_no_partial_decode {α : Type}
    (d : Nat → List Nat → Except NomErr (List Nat × α)) :
    (∀ input : List Nat, input.length < 4 →
        parse_tlv d input = .error (.Error input)) ∧
    (∀ b0 b1 b2 b3 : Nat, ∀ rest : List Nat,
        4 ≤ b2 * 256 + b3 → b2 * 256 + b3 - 4 ≤ rest.length →
        d (b0 * 256 + b1) (rest.take (b2 * 256 + b3 - 4)) = .error .Incomplete →
        parse_tlv d (b0 :: b1 :: b2 :: b3 :: rest) = .error (.Error rest)) := by
  constructor
  · intro input hlen
    simp only [parse_tlv, TAG_LENGTH_HEADER_SIZE]
    rw [if_pos hlen]
  · intro b0 b1 b2 b3 rest h4 hle hd
    have h1 : ¬ (b2 * 256 + b3 < 4) := by omega
    have h2 : ¬ (rest.length < b2 * 256 + b3 - 4) := by omega
    rw [parse_tlv_cons, if_neg h1]
    simp only [gt_iff_lt]
    rw [if_neg h2, hd]

theorem tlv_no_partial_decode_witness :
    parse_tlv dispatchIncomplete [1, 2, 3] = .error (.Error [1, 2, 3]) ∧
    parse_tlv dispatchIncomplete [0, 0, 0, 4] = .error (.Error []) :=
  ⟨(tlv_no_partial_decode dispatchIncomplete).1 [1, 2, 3] (by decide),
   (tlv_no_partial_decode dispatchIncomplete).2 0 0 0 4 [] (by decide) (by decide) (by rfl)⟩

/-- Claim C10: TLV parsing succeeds only if the dispatch function consumes
the value slice entirely; if any bytes of the extracted value remain
unconsumed after dispatch, the whole TLV parse fails. -/
theorem tlv_requires_full_consumption {α : Type}
    (d : Nat → List Nat → Except NomErr (List Nat × α))
    (b0 b1 b2 b3 : Nat) (rest i2 : List Nat) (v : α)
    (h4 : 4 ≤ b2 * 256 + b3) (hlen : b2 * 256 + b3 - 4 ≤ rest.length)
    (hd : d (b0 * 256 + b1) (rest.take (b2 * 256 + b3 - 4)) = .ok (i2, v))
    (hne : i2.length ≠ 0) :
    parse_tlv d (b0 :: b1 :: b2 :: b3 :: rest) = .error (.Error i2) := by
  have h1 : ¬ (b2 * 256 + b3 < 4) := by omega
  have h2 : ¬ (rest.length < b2 * 256 + b3 - 4) := by omega
  rw [parse_tlv_cons, if_neg h1]
  simp only [gt_iff_lt]
  rw [if_neg h2, hd]
  simp [hne]

theorem tlv_requires_full_consumption_witness :
    parse_tlv dispatchLeftover [0, 0, 0, 6, 8, 9] = .error (.Error [8, 9]) :=
  tlv_requires_full_consumption dispatchLeftover 0 0 0 6 [8, 9] [8, 9] 0
    (by decide) (by decide) (by rfl) (by decide)

/-!
The UDP lower-layer adapter from `src/stack/lowerlayer.rs`.

The socket itself is external state; its observable outcome at one call is
modelled as an event (`SocketRecvEvent` for `poll_recv_from`,
`SocketSendEvent` for `poll_send_to`).  Since the Rust methods take
`&mut self`, each embedded operation returns the updated adapter state
explicitly; the source bodies never assign any field, so they return the
adapter unchanged.
-/

/-- The kind of an `io::Error`, as inspected by the adapter. -/
inductive IoErrorKind where
  | WouldBlock : IoErrorKind
  | Other : Nat → IoErrorKind
deriving DecidableEq, Repr

/-- `futures::Async` (futures 0.1). -/
inductive Async (α : Type) where
  | Ready : α → Async α
  | NotReady : Async α
deriving DecidableEq, Repr

/-- `futures::AsyncSink` (futures 0.1): `Ready` means the item was
accepted; `NotReady` hands the item back for back-pressure. -/
inductive AsyncSink (α : Type) where
  | Ready : AsyncSink α
  | NotReady : α → AsyncSink α
deriving DecidableEq, Repr

/-- `std::net::SocketAddr`, restricted to the IPv4 data the adapter uses:
four address octets and a port. -/
structure SocketAddr where
  octets : Nat × Nat × Nat × Nat
  port : Nat
deriving DecidableEq, Repr

/-- `LowerLayerPacket`: a framed packet buffer paired with a peer
address. -/
structure LowerLayerPacket where
  buffer : List Nat
  address : SocketAddr
deriving DecidableEq, Repr

/-- The observable outcome of one `UdpSocket::poll_recv_from` call: a
datagram is available (with the sender's address), the socket is not
ready, or an I/O error occurred. -/
inductive SocketRecvEvent where
  | Datagram : List Nat → SocketAddr → SocketRecvEvent
  | NotReady : SocketRecvEvent
  | Err : IoErrorKind → SocketRecvEvent
deriving DecidableEq, Repr

/-- The observable outcome of one `UdpSocket::poll_send_to` call. -/
inductive SocketSendEvent where
  | Sent : Nat → SocketSendEvent
  | NotReady : SocketSendEvent
  | Err : IoErrorKind → SocketSendEvent
deriving DecidableEq, Repr

/-- `UdpLowerLayer`: the bound address recorded at construction.  The
socket handle itself carries no further state observable by this model. -/
structure UdpLowerLayer where
  address : SocketAddr
deriving DecidableEq, Repr

/-- `UdpLowerLayer::SCTP_UDP_TUNNELING_PORT`: the IANA-assigned UDP port
for encapsulating SCTP, defined in RFC 6951. -/
def UdpLowerLayer.SCTP_UDP_TUNNELING_PORT : Nat := 9899

/-- `UdpLowerLayer::SCTP_UDP_TUNNELING_PORT_OUTGOING`. -/
def UdpLowerLayer.SCTP_UDP_TUNNELING_PORT_OUTGOING : Nat := 9900

/-- `UdpLowerLayer::new()`: bind a non-blocking UDP socket to IPv4
localhost 127.0.0.1 on port 9899 and record that address. -/
def UdpLowerLayer.new : UdpLowerLayer :=
  let localhost : Nat × Nat × Nat × Nat := (127, 0, 0, 1)
  let address : SocketAddr := ⟨localhost, UdpLowerLayer.SCTP_UDP_TUNNELING_PORT⟩
  ⟨address⟩

/-- The `LowerLayerProtocol::address` trait method for `UdpLowerLayer`:
returns `self.address`. -/
def UdpLowerLayer.addressMethod (self : UdpLowerLayer) : SocketAddr :=
  self.address

/-- `UdpSocket::poll_recv_from` writing into a caller-supplied buffer: at
most `buf.length` bytes of the datagram are stored (a longer datagram is
truncated, per UDP receive semantics); returns the byte count reported and
the buffer contents after the call. -/
def poll_recv_from (datagram : List Nat) (buf : List Nat) : Nat × List Nat :=
  let nbytes := min datagram.length buf.length
  (nbytes, datagram.take nbytes ++ buf.drop nbytes)

/-- `<UdpLowerLayer as Stream>::poll`: allocate a zeroed 1500-byte stack
buffer, receive into it, and on success copy the first `nbytes` bytes into
a fresh buffer returned with the sender's address.  `NotReady` and
`WouldBlock` yield a not-ready indication; other errors propagate. -/
def UdpLowerLayer.poll (self : UdpLowerLayer) (ev : SocketRecvEvent) :
    UdpLowerLayer × Except IoErrorKind (Async (Option LowerLayerPacket)) :=
  let buffer : List Nat := List.replicate 1500 0
  match ev with
  | .Datagram d addr =>
    let r := poll_recv_from d buffer
    let nbytes := r.1
    let bytes := r.2.take nbytes
    (self, .ok (.Ready (some ⟨bytes, addr⟩)))
  | .NotReady => (self, .ok .NotReady)
  | .Err kind =>
    if kind = IoErrorKind.WouldBlock then (self, .ok .NotReady)
    else (self, .error kind)

/-- `<UdpLowerLayer as Sink>::start_send`: try to send the packet's buffer
to the packet's address; when the socket is not ready (or reports
`WouldBlock`) hand the very packet back as `AsyncSink::NotReady`; other
errors propagate. -/
def UdpLowerLayer.start_send (self : UdpLowerLayer) (ev : SocketSendEvent)
    (packet : LowerLayerPacket) :
    UdpLowerLayer × Except IoErrorKind (AsyncSink LowerLayerPacket) :=
  match ev with
  | .Sent _ => (self, .ok .Ready)
  | .NotReady => (self, .ok (.NotReady packet))
  | .Err kind =>
    if kind = IoErrorKind.WouldBlock then (self, .ok (.NotReady packet))
    else (self, .error kind)

/-- `<UdpLowerLayer as Sink>::poll_complete`: always ready. -/
def UdpLowerLayer.poll_complete (self : UdpLowerLayer) :
    UdpLowerLayer × Except IoErrorKind (Async Unit) :=
  (self, .ok (.Ready ()))

theorem poll_recv_bytes_eq (d : List Nat) :
    ((poll_recv_from d (List.replicate 1500 0)).2).take
        (poll_recv_from d (List.replicate 1500 0)).1 = d.take 1500 := by
  simp only [poll_recv_from, List.length_replicate]
  rw [List.take_append_of_le_length (by simp)]
  rw [List.take_take, min_self]
  rcases le_total d.length 1500 with hle | hle
  · rw [min_eq_left hle, List.take_length, List.take_of_length_le hle]
  · rw [min_eq_right hle]

/-- Claim C5: the receive operation of the UDP lower-layer adapter is
non-blocking: an available datagram yields exactly one framed packet
buffer paired with the sender's peer address; no datagram available (the
socket not ready, or an io error of kind WouldBlock) yields a not-ready
indication rather than an error. -/
theorem udp_poll_nonblocking (l : UdpLowerLayer) (d : List Nat) (addr : SocketAddr) :
    (∃ buf : List Nat, (l.poll (.Datagram d addr)).2 = .ok (.Ready (some ⟨buf, addr⟩))) ∧
    (l.poll .NotReady).2 = .ok .NotReady ∧
    (l.poll (.Err .WouldBlock)).2 = .ok .NotReady := by
  refine ⟨⟨_, rfl⟩, rfl, ?_⟩
  simp [UdpLowerLayer.poll]

/-- Claim C9: every packet buffer yielded by the UDP adapter's receive
operation holds exactly the bytes the socket reported reading, hence at
most 1500 bytes; a longer inbound datagram is silently truncated to its
first 1500 bytes with no error indication. -/
theorem udp_poll_truncates_to_1500 (l : UdpLowerLayer) (d : List Nat) (addr : SocketAddr) :
    (l.poll (.Datagram d addr)).2 = .ok (.Ready (some ⟨d.take 1500, addr⟩)) ∧
    (d.take 1500).length ≤ 1500 := by
  constructor
  · simp only [UdpLowerLayer.poll]
    rw [← poll_recv_bytes_eq d]
  · simp only [List.length_take]
    omega

/-- Claim C6: the send operation is non-blocking and surfaces
back-pressure without loss: when the socket is not ready (or reports
WouldBlock), start_send hands back the very packet it was given — same
buffer and same address — as a not-ready indication, and the adapter state
is unchanged. -/
theorem udp_start_send_backpressure (l : UdpLowerLayer) (p : LowerLayerPacket) :
    (l.start_send .NotReady p).2 = .ok (.NotReady ⟨p.buffer, p.address⟩) ∧
    (l.start_send (.Err .WouldBlock) p).2 = .ok (.NotReady ⟨p.buffer, p.address⟩) ∧
    (l.start_send .NotReady p).1 = l ∧
    (l.start_send (.Err .WouldBlock) p).1 = l := by
  refine ⟨?_, ?_, rfl, ?_⟩ <;> simp [UdpLowerLayer.start_send]

/-- Claim C8: UdpLowerLayer::new constructs an adapter bound to
127.0.0.1:9899, the IANA-assigned SCTP tunneling port of RFC 6951; the
address operation returns exactly the bound address, and no adapter
operation ever changes it. -/
theorem udp_new_binds_port_9899 :
    UdpLowerLayer.new.addressMethod = ⟨(127, 0, 0, 1), 9899⟩ ∧
    UdpLowerLayer.SCTP_UDP_TUNNELING_PORT = 9899 ∧
    (∀ l : UdpLowerLayer, l.addressMethod = l.address) ∧
    (∀ l : UdpLowerLayer, ∀ ev, (UdpLowerLayer.poll l ev).1 = l) ∧
    (∀ l : UdpLowerLayer, ∀ ev p, (UdpLowerLayer.start_send l ev p).1 = l) ∧
    (∀ l : UdpLowerLayer, (UdpLowerLayer.poll_complete l).1 = l) := by
  refine ⟨rfl, rfl, fun l => rfl, fun l ev => ?_, fun l ev p => ?_, fun l => rfl⟩
  · cases ev with
    | Datagram d a => rfl
    | NotReady => rfl
    | Err k => simp only [UdpLowerLayer.poll]; split <;> rfl
  · cases ev with
    | Sent n => rfl
    | NotReady => rfl
    | Err k => simp only [UdpLowerLayer.start_send]; split <;> rfl

/-!
The error enumeration from `src/error.rs`.  The `Io` variant wraps a
`std::io::Error`, observable here through its kind.  The only operation in
the source that constructs an `SctpError` value is the
`From io::Error` conversion; `Display` and `Error::source` only inspect
values.
-/

/-- `SctpError` from `src/error.rs`: the twelve variants as declared,
including the `#[allow(dead_code)] ReadUnderrun` variant. -/
inductive SctpError where
  | Io : IoErrorKind → SctpError
  | ReadUnderrun : SctpError
  | InvalidPacket : SctpError
  | BadChecksum : SctpError
  | BadState : SctpError
  | ExpectedBeginningFragment : SctpError
  | UnexpectedBeginningFragment : SctpError
  | UnexpectedSSN : SctpError
  | SendQueueFull : SctpError
  | CommandQueueFull : SctpError
  | Closed : SctpError
  | Timeout : SctpError
deriving DecidableEq, Repr

/-- The `From io::Error for SctpError` conversion: wrap the error in the
`Io` variant. -/
def SctpError.from_io_error (err : IoErrorKind) : SctpError :=
  SctpError.Io err

/-- Refinement of §7 of the specification: the error kinds it lists as
surfaced to callers (`Io`, `InvalidPacket`, `BadChecksum`, `BadState`,
`ExpectedBeginningFragment`, `UnexpectedBeginningFragment`,
`UnexpectedSSN`, `SendQueueFull`, `CommandQueueFull`, `Closed`,
`Timeout`).  This definition follows the spec's words, to be compared with
the `SctpError` type taken from the source. -/
def SctpError.specSurfaced : SctpError → Bool
  | .Io _ => true
  | .InvalidPacket => true
  | .BadChecksum => true
  | .BadState => true
  | .ExpectedBeginningFragment => true
  | .UnexpectedBeginningFragment => true
  | .UnexpectedSSN => true
  | .SendQueueFull => true
  | .CommandQueueFull => true
  | .Closed => true
  | .Timeout => true
  | .ReadUnderrun => false

/-- Claim C7: the error kinds surfaced to callers are exactly the eleven
the specification lists — every `SctpError` variant other than
`ReadUnderrun` is spec-surfaced and conversely — and `ReadUnderrun` is
never constructed: the sole `SctpError`-producing operation in the source,
the `io::Error` conversion, always yields `Io`. -/
theorem sctp_error_kinds_exact :
    (∀ e : SctpError, e.specSurfaced = true ↔ e ≠ SctpError.ReadUnderrun) ∧
    (∀ k : IoErrorKind, SctpError.from_io_error k = SctpError.Io k) ∧
    (∀ k : IoErrorKind, SctpError.from_io_error k ≠ SctpError.ReadUnderrun) := by
  refine ⟨fun e => ?_, fun k => rfl, fun k => ?_⟩
  · cases e <;> simp [SctpError.specSurfaced]
  · simp [SctpError.from_io_error]
